import Mathlib

/-!
Shallow embedding of `src/chapter_code/chapter32_Spark_AI/HorovodEstimator.py`,
a Databricks notebook that trains a distributed MNIST classifier with a
`HorovodEstimator`.  The TensorFlow graph built by `model_fn` is embedded as
symbolic expression trees (the notebook only ever builds the graph; running it
is framework work), the notebook's straight-line control flow as an explicit
event trace, and the Spark / dbutils operations it calls on lists modelling
dataframes and filesystems.
-/

namespace HorovodNotebook

/-- The three execution modes of `tf.estimator.ModeKeys` dispatched on by
`model_fn` (lines 63, 69 of the notebook). -/
inductive Mode where
  | PREDICT
  | TRAIN
  | EVAL
deriving DecidableEq, Repr

/-- Symbolic TensorFlow tensor expressions: exactly the graph-building
operations the notebook's `model_fn` applies (lines 48-87). -/
inductive TExpr where
  /-- `features[col]`: a batch column fed by the estimator. -/
  | feature (col : String)
  /-- the `labels` tensor argument of `model_fn`. -/
  | labelsT
  /-- `mnist.inference(input, hidden1_units, hidden2_units)` (line 50). -/
  | inference (input : TExpr) (hidden1 hidden2 : Nat)
  /-- `tf.argmax(input, axis)` (line 57). -/
  | argmax (input : TExpr) (axis : Nat)
  /-- `tf.nn.softmax(logits)` (line 58). -/
  | softmax (input : TExpr)
  /-- `tf.cast(t, tf.int32)` (line 67). -/
  | castI32 (t : TExpr)
  /-- `tf.one_hot(indices, depth)` (line 67). -/
  | oneHot (indices : TExpr) (depth : Nat)
  /-- `tf.losses.softmax_cross_entropy(onehot_labels, logits)` (line 68). -/
  | xent (onehot logits : TExpr)
deriving DecidableEq, Repr

/-- `tf.train.LoggingTensorHook(tensors=..., every_n_iter=...)` (line 71). -/
structure LoggingTensorHook where
  tensors : List (String × String)
  everyNIter : Nat
deriving DecidableEq, Repr

/-- The optimizer object built in TRAIN mode: a base
`tf.train.MomentumOptimizer(learning_rate, momentum)` possibly wrapped by
`hvd.DistributedOptimizer` (lines 73-75). -/
inductive Optimizer where
  | momentum (learningRate momentumCoeff : ℚ)
  | distributed (base : Optimizer)
deriving DecidableEq, Repr

/-- `optimizer.minimize(loss, global_step)` (lines 76-78): the training
operation records which optimizer applies the gradients of which loss. -/
structure TrainOp where
  optimizer : Optimizer
  loss : TExpr
deriving DecidableEq, Repr

/-- The single evaluation metric the notebook builds:
`tf.metrics.accuracy(labels, predictions)` (lines 84-85). -/
inductive MetricOp where
  | accuracy (labels predictions : TExpr)
deriving DecidableEq, Repr

/-- `tf.estimator.EstimatorSpec`: the mode-tagged bundle `model_fn` returns.
Fields the notebook does not pass for a given mode are `none` / `[]`. -/
structure EstimatorSpec where
  mode : Mode
  predictions : Option (List (String × TExpr))
  loss : Option TExpr
  trainOp : Option TrainOp
  evalMetricOps : Option (List (String × MetricOp))
  exportOutputs : List (String × List (String × TExpr))
  trainingHooks : List LoggingTensorHook
deriving DecidableEq, Repr

/-- `tf.saved_model.signature_constants.DEFAULT_SERVING_SIGNATURE_DEF_KEY`
(line 52). -/
def servingKey : String := "serving_default"

/-- The notebook's `model_fn` (lines 28-87), embedded as a function from the
hyperparameter bag, the mode and the Horovod world size `hvd.size()` to the
returned `EstimatorSpec`.  Missing hyperparameter keys abort with `none`
(a Python `KeyError`). -/
def model_fn (params : List (String × Nat)) (mode : Mode) (hvdSize : Nat) :
    Option EstimatorSpec := do
  let hidden1 ← params.lookup "hidden1_units"
  let hidden2 ← params.lookup "hidden2_units"
  let input_layer := TExpr.feature "image"
  let logits := TExpr.inference input_layer hidden1 hidden2
  let predictions : List (String × TExpr) :=
    [("classes", TExpr.argmax logits 1), ("probabilities", TExpr.softmax logits)]
  let export_outputs := [(servingKey, predictions)]
  if mode = Mode.PREDICT then
    return EstimatorSpec.mk mode (some predictions) none none none export_outputs []
  let onehot_labels := TExpr.oneHot (TExpr.castI32 TExpr.labelsT) 10
  let loss := TExpr.xent onehot_labels logits
  if mode = Mode.TRAIN then
    let logging_hooks := [LoggingTensorHook.mk [("predictions", "classes_tensor")] 5000]
    let optimizer := Optimizer.momentum ((1 : ℚ) / 1000 * hvdSize) (9 / 10)
    let optimizer := Optimizer.distributed optimizer
    let train_op := TrainOp.mk optimizer loss
    return EstimatorSpec.mk mode none (some loss) (some train_op) none export_outputs
      logging_hooks
  let eval_metric_ops := [("accuracy", MetricOp.accuracy TExpr.labelsT (TExpr.argmax logits 1))]
  return EstimatorSpec.mk mode none (some loss) none (some eval_metric_ops) export_outputs []

/-- The literal `modelFnParams={"hidden1_units": 100, "hidden2_units": 50}`
passed to the `HorovodEstimator` constructor (line 104). -/
def modelFnParams : List (String × Nat) :=
  [("hidden1_units", 100), ("hidden2_units", 50)]

/-- Local checkpoint directory `model_dir = "/tmp/horovod_estimator"` (line 94). -/
def model_dir : String := "/tmp/horovod_estimator"

/-- The argument of the pre-training cleanup `dbutils.fs.rm(model_dir[5:],
recurse=True)` (line 95): the Python slice `model_dir[5:]`. -/
def rmArg : String := model_dir.drop 5

/-- The `HorovodEstimator(...)` constructor options (lines 97-105).  The
constructor itself lives in `sparkdl`; the notebook only fills in this record
of named options, which is what the claims inspect. -/
structure EstConfig where
  featureMapping : List (String × String)
  modelDir : String
  labelCol : String
  batchSize : Nat
  maxSteps : Nat
  isValidationCol : String
  estModelFnParams : List (String × Nat)
  saveCheckpointsSecs : Nat
deriving DecidableEq, Repr

/-- `est = HorovodEstimator(modelFn=model_fn, featureMapping={"image": "image"},
modelDir=model_dir, labelCol="label_col", batchSize=64, maxSteps=5000,
isValidationCol="isVal", modelFnParams=..., saveCheckpointsSecs=30)`
(lines 97-105). -/
def est : EstConfig :=
  EstConfig.mk [("image", "image")] model_dir "label_col" 64 5000 "isVal"
    modelFnParams 30

/-! ### The validation-split column (line 110)

`df_with_val = df.withColumn("isVal", when(rand() > 0.8, True).otherwise(False))`.
Spark's `rand()` draws one number per row, uniformly from `[0, 1)` (library
contract, modelled below for the probability statement); the notebook's own
logic is the `when(... > 0.8, True).otherwise(False)` expression, embedded
here per draw. -/

/-- `when(r > 0.8, True)`: a nullable column that is `True` where the condition
holds and null (`none`) elsewhere. -/
def whenGt (r : ℚ) : Option Bool :=
  if r > 8 / 10 then some true else none

/-- `when(r > 0.8, True).otherwise(False)`: `otherwise` fills every null slot
with `False`. -/
def whenOtherwise (r : ℚ) : Option Bool :=
  match whenGt r with
  | some b => some b
  | none => some false

/-- `df.withColumn("isVal", ...)` over a dataframe given as a list of rows,
with one independent draw of `rand()` per row: row `i` is paired with the
value of the `isVal` expression at draw `i`. -/
def dfWithVal {α : Type} (rows : List α) (draws : List ℚ) : List (α × Option Bool) :=
  rows.zipWith (fun row r => (row, whenOtherwise r)) draws

/-- Modelled from the spec: Spark's `rand()` (library code, not under `src/`)
draws uniformly from the unit interval `[0, 1)`; this set is the event, inside
that interval, on which the notebook's condition `rand() > 0.8` holds. -/
def isValEvent : Set ℝ := {r : ℝ | r ∈ Set.Ico (0 : ℝ) 1 ∧ r > 8 / 10}

/-- The complementary event: the row is marked as training data. -/
def isTrainEvent : Set ℝ := {r : ℝ | r ∈ Set.Ico (0 : ℝ) 1 ∧ ¬r > 8 / 10}

/-! ### The dataset loader (lines 14-19)

`x_train` arrives from `tf.keras.datasets.mnist.load_data` as a stack of 28x28
grids; `x_train.reshape((n, -1))` flattens each grid, and the comprehension on
line 16 pairs flattened image `i` with label `int(y_train[i])`. -/

/-- `x_train.reshape((x_train.shape[0], -1))` applied to one 28x28 grid:
row-major flattening. -/
def flattenImage (img : List (List ℚ)) : List ℚ := img.flatten

/-- `data = [(x_train[i].astype(float).tolist(), int(y_train[i])) for i in
range(len(y_train))]` (line 16): the records placed in the dataframe. -/
def mnistData (imgs : List (List (List ℚ))) (lbls : List ℤ) : List (List ℚ × ℤ) :=
  (imgs.map flattenImage).zip lbls

/-! ### dbutils filesystem model (lines 95 and 127)

`dbutils.fs` is Databricks library code, not under `src/`; the claims about it
are settled against the model below. -/

/-- A storage location named by a `dbutils.fs` path string. -/
inductive FsLocation where
  | dbfs (path : String)
  | localFile (path : String)
deriving DecidableEq, Repr

/-- `pathStarts q p`: the path string `p` starts with `q` (character-wise, so
that it evaluates by kernel reduction). -/
def pathStarts (q p : String) : Bool := q.toList.isPrefixOf p.toList

/-- Modelled from the spec: how `dbutils.fs` (Databricks library code, not
under `src/`) resolves a path string: a `file:` scheme names the driver-local
filesystem, a `dbfs:` scheme names the distributed filesystem explicitly, and
a bare path is relative to the distributed filesystem root. -/
def resolvePath (p : String) : FsLocation :=
  if pathStarts "file:" p then FsLocation.localFile (p.drop 5)
  else if pathStarts "dbfs:" p then FsLocation.dbfs (p.drop 5)
  else FsLocation.dbfs p

/-- The cluster's storage: the distributed filesystem and the driver-local
filesystem, each a list of (path, contents) entries. -/
structure ClusterFS where
  dbfsEntries : List (String × String)
  localEntries : List (String × String)
deriving DecidableEq, Repr

/-- The entries lying under directory `q`, re-addressed relative to `q`. -/
def entriesUnder (q : String) (es : List (String × String)) : List (String × String) :=
  (es.filter (fun e => pathStarts q e.1)).map (fun e => (e.1.drop q.length, e.2))

/-- Read the tree under a resolved location. -/
def readTree (loc : FsLocation) (fs : ClusterFS) : List (String × String) :=
  match loc with
  | FsLocation.dbfs q => entriesUnder q fs.dbfsEntries
  | FsLocation.localFile q => entriesUnder q fs.localEntries

/-- Write a (relative-path, contents) tree under a resolved location. -/
def writeTree (loc : FsLocation) (tree : List (String × String)) (fs : ClusterFS) :
    ClusterFS :=
  match loc with
  | FsLocation.dbfs q =>
      ClusterFS.mk (fs.dbfsEntries ++ tree.map (fun e => (q ++ e.1, e.2))) fs.localEntries
  | FsLocation.localFile q =>
      ClusterFS.mk fs.dbfsEntries (fs.localEntries ++ tree.map (fun e => (q ++ e.1, e.2)))

/-- Modelled from the spec: `dbutils.fs.cp(src, dst, recurse=True)` (library
code, not under `src/`) recursively copies the tree under `src` to `dst`,
reading the source entries verbatim and leaving them in place. -/
def fsCp (src dst : String) (fs : ClusterFS) : ClusterFS :=
  writeTree (resolvePath dst) (readTree (resolvePath src) fs) fs

/-- Modelled from the spec: `dbutils.fs.rm(p, recurse=True)` (library code,
not under `src/`) deletes the tree under `p` at the location the path resolves
to, touching nothing at the other location. -/
def fsRm (p : String) (fs : ClusterFS) : ClusterFS :=
  match resolvePath p with
  | FsLocation.dbfs q =>
      ClusterFS.mk (fs.dbfsEntries.filter (fun e => ¬pathStarts q e.1)) fs.localEntries
  | FsLocation.localFile q =>
      ClusterFS.mk fs.dbfsEntries (fs.localEntries.filter (fun e => ¬pathStarts q e.1))

/-- The notebook's one copy call:
`dbutils.fs.cp("file:/tmp/horovod_estimator/", "dbfs:/horovod_estimator/",
recurse=True)` (line 127). -/
def notebookCp (fs : ClusterFS) : ClusterFS :=
  fsCp "file:/tmp/horovod_estimator/" "dbfs:/horovod_estimator/" fs

/-- The notebook's one delete call: `dbutils.fs.rm(model_dir[5:], recurse=True)`
(line 95). -/
def notebookRm (fs : ClusterFS) : ClusterFS :=
  fsRm rmArg fs

/-! ### The pipeline driver (lines 94-146)

The cells after `model_fn` are a straight-line script.  It is embedded as a
state-passing program that also logs one `Event` per framework call, so that
the order of the calls and the data flow between them are both visible.  The
result a `fit` produces is opaque to the notebook, so `runNotebook` is
parameterized by an arbitrary function `train` giving, for each fit invocation
(numbered 0, 1, ...) and the estimator's `maxSteps` at that moment, the fitted
model of type `M`. -/

/-- One framework call issued by the notebook script, in program order. -/
inductive Event where
  | rmEvent (path : String) (recurse : Bool)
  | withColumnEvent (col : String)
  | fitEvent (fitIdx maxSteps : Nat) (dfName : String)
  | transformEvent (fitIdx : Nat) (dfName : String)
  | displayEvent
  | setMaxStepsEvent (n : Nat)
  | cpEvent (src dst : String) (recurse : Bool)
  | shellEvent (cmd : String)
  | fsLsEvent (path : String)
deriving DecidableEq, Repr

/-- The transformer returned by `est.fit`: it remembers which fit invocation
produced it and the fitted model. -/
structure Transformer (M : Type) where
  fitIdx : Nat
  model : M
deriving DecidableEq, Repr

/-- `transformer.transform(df)`: the prediction table is a function of the
transformer's fitted model and the input dataframe (named here by the
variable it is read from). -/
def transform {M : Type} (t : Transformer M) (dfName : String) : M × String :=
  (t.model, dfName)

/-- Everything the script leaves behind: the event trace, the two displayed
prediction tables `res` and `new_res`, and the two transformers. -/
structure RunOutcome (M : Type) where
  trace : List Event
  res : M × String
  new_res : M × String
  transformer : Transformer M
  new_transformer : Transformer M
deriving DecidableEq, Repr

/-- The notebook script from line 94 to line 146, with one `Event` per
framework call.  `train fitIdx maxSteps` stands for the opaque result of the
`fitIdx`-th `est.fit` call, made while the estimator's step budget is
`maxSteps`. -/
def runNotebook (M : Type) (train : Nat → Nat → M) : RunOutcome M :=
  -- line 95: dbutils.fs.rm(model_dir[5:], recurse=True)
  let e0 := Event.rmEvent rmArg true
  -- lines 97-105: est = HorovodEstimator(..., maxSteps=5000, ...)
  let estMaxSteps := est.maxSteps
  -- line 110: df_with_val = df.withColumn("isVal", ...)
  let e1 := Event.withColumnEvent est.isValidationCol
  -- line 112: transformer = est.fit(df_with_val)
  let transformer : Transformer M := Transformer.mk 0 (train 0 estMaxSteps)
  let e2 := Event.fitEvent 0 estMaxSteps "df_with_val"
  -- line 115: res = transformer.transform(df)
  let res := transform transformer "df"
  let e3 := Event.transformEvent transformer.fitIdx "df"
  -- line 116: display(res)
  let e4 := Event.displayEvent
  -- line 120: est.setMaxSteps(10000)
  let estMaxSteps := 10000
  let e5 := Event.setMaxStepsEvent estMaxSteps
  -- line 121: new_transformer = est.fit(df_with_val)
  let new_transformer : Transformer M := Transformer.mk 1 (train 1 estMaxSteps)
  let e6 := Event.fitEvent 1 estMaxSteps "df_with_val"
  -- line 122: new_res = transformer.transform(df)
  let new_res := transform transformer "df"
  let e7 := Event.transformEvent transformer.fitIdx "df"
  -- line 123: display(new_res)
  let e8 := Event.displayEvent
  -- line 127: dbutils.fs.cp("file:/tmp/horovod_estimator/", "dbfs:/horovod_estimator/", recurse=True)
  let e9 := Event.cpEvent "file:/tmp/horovod_estimator/" "dbfs:/horovod_estimator/" true
  -- lines 131-146: %sh ls, dbutils.fs.ls, %sh rm -rf, %sh ls
  let e10 := Event.shellEvent "ls -ltr /tmp/horovod_estimator"
  let e11 := Event.fsLsEvent "dbfs:/horovod_estimator/"
  let e12 := Event.shellEvent "rm -rf /tmp/horovod_estimator"
  let e13 := Event.shellEvent "ls -ltr /tmp/horovod_estimator"
  RunOutcome.mk [e0, e1, e2, e3, e4, e5, e6, e7, e8, e9, e10, e11, e12, e13]
    res new_res transformer new_transformer

/-! ### Semantics of the two framework operations the claims describe -/

/-- Modelled from the spec: the gradient an optimizer's update step actually
applies, given the list of per-worker gradients of one synchronization round.
A plain optimizer applies its own locally computed gradient; Horovod's
`DistributedOptimizer` (library code, not under `src/`) first averages the
gradients across all participating workers and hands the average to its base
optimizer. -/
def Optimizer.appliedGradient : Optimizer → List ℚ → Option ℚ
  | Optimizer.momentum _ _, gs => gs.head?
  | Optimizer.distributed base, gs => base.appliedGradient [gs.sum / gs.length]

/-- Modelled from the spec: the value of `tf.metrics.accuracy` (TensorFlow
library code, not under `src/`) over a finished batch of labels and predicted
classes: the fraction of rows whose prediction equals the label. -/
def MetricOp.value : MetricOp → List ℕ → List ℕ → ℚ
  | MetricOp.accuracy _ _, ls, ps =>
      (((ls.zip ps).filter fun q => q.1 == q.2).length : ℚ) / (ls.zip ps).length

/-- The `EstimatorSpec` built by `model_fn` in PREDICT mode with the
notebook's hyperparameters and one worker (for concrete witnesses). -/
def predictSpec1 : EstimatorSpec :=
  (model_fn modelFnParams Mode.PREDICT 1).getD
    (EstimatorSpec.mk Mode.PREDICT none none none none [] [])

/-- The `EstimatorSpec` built by `model_fn` in TRAIN mode with the notebook's
hyperparameters on a four-worker cluster (for concrete witnesses). -/
def trainSpec4 : EstimatorSpec :=
  (model_fn modelFnParams Mode.TRAIN 4).getD
    (EstimatorSpec.mk Mode.TRAIN none none none none [] [])

/-- The `EstimatorSpec` built by `model_fn` in TRAIN mode with the notebook's
hyperparameters on a two-worker cluster (for concrete witnesses). -/
def trainSpec2 : EstimatorSpec :=
  (model_fn modelFnParams Mode.TRAIN 2).getD
    (EstimatorSpec.mk Mode.TRAIN none none none none [] [])

/-- The `EstimatorSpec` built by `model_fn` in EVAL mode with the notebook's
hyperparameters on a two-worker cluster (for concrete witnesses). -/
def evalSpec2 : EstimatorSpec :=
  (model_fn modelFnParams Mode.EVAL 2).getD
    (EstimatorSpec.mk Mode.EVAL none none none none [] [])

/-! ## Theorems -/

/-- C2: whenever `model_fn` runs in PREDICT mode, the returned specification
carries no loss, no training operation, no evaluation metrics and no training
hooks — only the predictions (`classes` is the arg-max of the logits along
axis 1, `probabilities` the row-wise softmax of the logits) and the export
mapping under the default serving signature. -/
theorem predict_mode_returns_only_predictions (params : List (String × Nat)) (n : Nat)
    (spec : EstimatorSpec) (h : model_fn params Mode.PREDICT n = some spec) :
    spec.loss = none ∧ spec.trainOp = none ∧ spec.evalMetricOps = none ∧
    spec.trainingHooks = [] ∧
    ∃ h1 h2, params.lookup "hidden1_units" = some h1 ∧
      params.lookup "hidden2_units" = some h2 ∧
      spec.predictions = some
        [("classes", TExpr.argmax (TExpr.inference (TExpr.feature "image") h1 h2) 1),
         ("probabilities", TExpr.softmax (TExpr.inference (TExpr.feature "image") h1 h2))] ∧
      spec.exportOutputs =
        [(servingKey,
          [("classes", TExpr.argmax (TExpr.inference (TExpr.feature "image") h1 h2) 1),
           ("probabilities", TExpr.softmax (TExpr.inference (TExpr.feature "image") h1 h2))])] := by
  cases hl1 : params.lookup "hidden1_units" with
  | none => simp [model_fn, hl1] at h
  | some h1 =>
    cases hl2 : params.lookup "hidden2_units" with
    | none => simp [model_fn, hl1, hl2] at h
    | some h2 =>
      simp [model_fn, hl1, hl2] at h
      subst h
      exact ⟨rfl, rfl, rfl, rfl, h1, h2, rfl, rfl, rfl, rfl⟩

/-- Witness for C2 at the notebook's hyperparameter bag and one worker. -/
theorem predict_mode_returns_only_predictions_witness :
    model_fn modelFnParams Mode.PREDICT 1 = some predictSpec1 ∧
    predictSpec1.loss = none ∧ predictSpec1.trainOp = none ∧
    predictSpec1.evalMetricOps = none ∧ predictSpec1.trainingHooks = [] := by
  have h := predict_mode_returns_only_predictions modelFnParams 1 predictSpec1 rfl
  exact ⟨rfl, h.1, h.2.1, h.2.2.1, h.2.2.2.1⟩

/-- C4: whenever `model_fn` runs in TRAIN mode, the training operation uses
the base momentum optimizer with learning rate `0.001 * hvd.size()` wrapped in
`hvd.DistributedOptimizer`, and that wrapped optimizer applies the average of
the per-worker gradients. -/
theorem train_mode_scaled_distributed_optimizer (params : List (String × Nat)) (n : Nat)
    (spec : EstimatorSpec) (h : model_fn params Mode.TRAIN n = some spec) :
    (∃ h1 h2, params.lookup "hidden1_units" = some h1 ∧
      params.lookup "hidden2_units" = some h2 ∧
      spec.trainOp = some (TrainOp.mk
        (Optimizer.distributed (Optimizer.momentum ((1 : ℚ) / 1000 * n) (9 / 10)))
        (TExpr.xent (TExpr.oneHot (TExpr.castI32 TExpr.labelsT) 10)
          (TExpr.inference (TExpr.feature "image") h1 h2)))) ∧
    (∀ op, spec.trainOp = some op → ∀ gs : List ℚ,
      op.optimizer.appliedGradient gs = some (gs.sum / gs.length)) := by
  cases hl1 : params.lookup "hidden1_units" with
  | none => simp [model_fn, hl1] at h
  | some h1 =>
    cases hl2 : params.lookup "hidden2_units" with
    | none => simp [model_fn, hl1, hl2] at h
    | some h2 =>
      simp [model_fn, hl1, hl2, -one_div] at h
      subst h
      refine ⟨⟨h1, h2, rfl, rfl, rfl⟩, ?_⟩
      intro op hop gs
      replace hop : some (TrainOp.mk
          (Optimizer.distributed (Optimizer.momentum ((1 : ℚ) / 1000 * n) (9 / 10)))
          (TExpr.xent (TExpr.oneHot (TExpr.castI32 TExpr.labelsT) 10)
            (TExpr.inference (TExpr.feature "image") h1 h2))) = some op := hop
      cases hop
      simp [Optimizer.appliedGradient]

/-- Witness for C4 at the notebook's hyperparameter bag on four workers,
with the concrete worker-gradient list `[1, 3]`. -/
theorem train_mode_scaled_distributed_optimizer_witness :
    model_fn modelFnParams Mode.TRAIN 4 = some trainSpec4 ∧
    (Optimizer.distributed
      (Optimizer.momentum ((1 : ℚ) / 1000 * 4) (9 / 10))).appliedGradient [1, 3] =
      some (([1, 3] : List ℚ).sum / ([1, 3] : List ℚ).length) := by
  refine ⟨rfl, ?_⟩
  exact (train_mode_scaled_distributed_optimizer modelFnParams 4 trainSpec4 rfl).2
    (TrainOp.mk
      (Optimizer.distributed (Optimizer.momentum ((1 : ℚ) / 1000 * 4) (9 / 10)))
      (TExpr.xent (TExpr.oneHot (TExpr.castI32 TExpr.labelsT) 10)
        (TExpr.inference (TExpr.feature "image") 100 50))) rfl [1, 3]

/-- C5: whenever `model_fn` runs in EVAL mode, the returned specification
carries exactly the loss of TRAIN mode — the softmax cross-entropy of the
logits against the labels one-hot-encoded to 10 classes — together with an
`accuracy` metric comparing the labels with the arg-max predicted classes,
whose value on a finished batch is the fraction of rows whose predicted class
equals the label. -/
theorem eval_mode_same_loss_and_accuracy (params : List (String × Nat)) (n : Nat)
    (specE specT : EstimatorSpec)
    (hE : model_fn params Mode.EVAL n = some specE)
    (hT : model_fn params Mode.TRAIN n = some specT) :
    specE.loss = specT.loss ∧
    (∃ h1 h2, params.lookup "hidden1_units" = some h1 ∧
      params.lookup "hidden2_units" = some h2 ∧
      specE.loss = some (TExpr.xent (TExpr.oneHot (TExpr.castI32 TExpr.labelsT) 10)
        (TExpr.inference (TExpr.feature "image") h1 h2)) ∧
      specE.evalMetricOps = some [("accuracy", MetricOp.accuracy TExpr.labelsT
        (TExpr.argmax (TExpr.inference (TExpr.feature "image") h1 h2) 1))]) ∧
    (∀ nm m, specE.evalMetricOps = some [(nm, m)] → ∀ (ls ps : List ℕ),
      ls.length = ps.length →
      MetricOp.value m ls ps * ls.length =
        ((ls.zip ps).filter fun q => q.1 == q.2).length) := by
  cases hl1 : params.lookup "hidden1_units" with
  | none => simp [model_fn, hl1] at hE
  | some h1 =>
    cases hl2 : params.lookup "hidden2_units" with
    | none => simp [model_fn, hl1, hl2] at hE
    | some h2 =>
      simp [model_fn, hl1, hl2, -one_div] at hE hT
      subst hE
      subst hT
      refine ⟨rfl, ⟨h1, h2, rfl, rfl, rfl, rfl⟩, ?_⟩
      intro nm m hm ls ps hlen
      replace hm : some [("accuracy", MetricOp.accuracy TExpr.labelsT
          (TExpr.argmax (TExpr.inference (TExpr.feature "image") h1 h2) 1))] =
          some [(nm, m)] := hm
      simp only [Option.some.injEq, List.cons.injEq, Prod.mk.injEq, and_true] at hm
      rcases hm with ⟨-, hmm⟩
      subst hmm
      have hzip : (ls.zip ps).length = ls.length := by
        rw [List.length_zip, hlen, Nat.min_self]
      by_cases h0 : ls.length = 0
      · have hnil : ls = [] := List.length_eq_zero.mp h0
        subst hnil
        simp [MetricOp.value]
      · simp only [MetricOp.value]
        rw [hzip]
        exact div_mul_cancel₀ _ (Nat.cast_ne_zero.mpr h0)

/-- Witness for C5 at the notebook's hyperparameter bag on two workers, with
the concrete batch of labels `[1, 2, 3]` and predictions `[1, 2, 4]`. -/
theorem eval_mode_same_loss_and_accuracy_witness :
    model_fn modelFnParams Mode.EVAL 2 = some evalSpec2 ∧
    model_fn modelFnParams Mode.TRAIN 2 = some trainSpec2 ∧
    evalSpec2.loss = trainSpec2.loss ∧
    MetricOp.value (MetricOp.accuracy TExpr.labelsT
        (TExpr.argmax (TExpr.inference (TExpr.feature "image") 100 50) 1))
        [1, 2, 3] [1, 2, 4] * ([1, 2, 3] : List ℕ).length =
      ((([1, 2, 3] : List ℕ).zip [1, 2, 4]).filter fun q => q.1 == q.2).length := by
  have h := eval_mode_same_loss_and_accuracy modelFnParams 2 evalSpec2 trainSpec2 rfl rfl
  exact ⟨rfl, rfl, h.1, h.2.2 "accuracy" _ rfl [1, 2, 3] [1, 2, 4] rfl⟩

/-- C3 (counterexample): the hyperparameter bag the notebook passes into the
model function holds exactly the two hidden-layer widths; no entry of it
equals the configured batch size (64), step budget (5000) or checkpoint
interval (30), so the bag does not contain those scalars as the claim
states. -/
theorem params_bag_lacks_estimator_scalars :
    modelFnParams.map Prod.fst = ["hidden1_units", "hidden2_units"] ∧
    (modelFnParams.filter fun kv =>
      kv.2 == est.batchSize || kv.2 == est.maxSteps || kv.2 == est.saveCheckpointsSecs) = [] := by
  decide

/-- C3 (amended): the hyperparameter bag passed opaquely through the estimator
into the model function is a flat name-to-scalar mapping containing only the
hidden-layer widths (`hidden1_units = 100`, `hidden2_units = 50`), which the
model function reads back; the batch size (64), the step budget (5000) and the
checkpoint interval (30) are separate named estimator options outside the
bag. -/
theorem params_bag_contains_only_hidden_widths :
    est.estModelFnParams = modelFnParams ∧
    modelFnParams = [("hidden1_units", 100), ("hidden2_units", 50)] ∧
    modelFnParams.lookup "hidden1_units" = some 100 ∧
    modelFnParams.lookup "hidden2_units" = some 50 ∧
    est.batchSize = 64 ∧ est.maxSteps = 5000 ∧ est.saveCheckpointsSecs = 30 := by
  decide

/-- C6: the pipeline issues its framework calls in one fixed linear order:
cleanup, split column, fit with the estimator's step budget 5000, transform,
display, raise the budget to 10000 (strictly larger), refit, transform again,
display, then copy the checkpoints — the trace is one literal list, with no
branching, retry or reordering. -/
theorem pipeline_strictly_linear (M : Type) (train : Nat → Nat → M) :
    (runNotebook M train).trace =
      [Event.rmEvent rmArg true,
       Event.withColumnEvent "isVal",
       Event.fitEvent 0 5000 "df_with_val",
       Event.transformEvent 0 "df",
       Event.displayEvent,
       Event.setMaxStepsEvent 10000,
       Event.fitEvent 1 10000 "df_with_val",
       Event.transformEvent 0 "df",
       Event.displayEvent,
       Event.cpEvent "file:/tmp/horovod_estimator/" "dbfs:/horovod_estimator/" true,
       Event.shellEvent "ls -ltr /tmp/horovod_estimator",
       Event.fsLsEvent "dbfs:/horovod_estimator/",
       Event.shellEvent "rm -rf /tmp/horovod_estimator",
       Event.shellEvent "ls -ltr /tmp/horovod_estimator"] ∧
    est.maxSteps < 10000 :=
  ⟨rfl, by decide⟩

/-- Witness for C6 at a concrete training function. -/
theorem pipeline_strictly_linear_witness :
    (runNotebook Nat fun i s => i + s).trace =
      [Event.rmEvent rmArg true,
       Event.withColumnEvent "isVal",
       Event.fitEvent 0 5000 "df_with_val",
       Event.transformEvent 0 "df",
       Event.displayEvent,
       Event.setMaxStepsEvent 10000,
       Event.fitEvent 1 10000 "df_with_val",
       Event.transformEvent 0 "df",
       Event.displayEvent,
       Event.cpEvent "file:/tmp/horovod_estimator/" "dbfs:/horovod_estimator/" true,
       Event.shellEvent "ls -ltr /tmp/horovod_estimator",
       Event.fsLsEvent "dbfs:/horovod_estimator/",
       Event.shellEvent "rm -rf /tmp/horovod_estimator",
       Event.shellEvent "ls -ltr /tmp/horovod_estimator"] ∧
    est.maxSteps < 10000 :=
  pipeline_strictly_linear Nat fun i s => i + s

/-- C9: the pre-training cleanup argument `model_dir[5:]` is the string
`"horovod_estimator"`, which `dbutils.fs` resolves relative to the distributed
filesystem root — not the local directory `model_dir = "/tmp/horovod_estimator"`
where checkpoints are written — so the deletion leaves the driver-local
filesystem untouched. -/
theorem cleanup_rm_targets_dbfs_not_local (fs : ClusterFS) :
    rmArg = "horovod_estimator" ∧
    resolvePath rmArg = FsLocation.dbfs "horovod_estimator" ∧
    rmArg ≠ est.modelDir ∧
    (notebookRm fs).localEntries = fs.localEntries := by
  have h : resolvePath rmArg = FsLocation.dbfs "horovod_estimator" := by decide
  refine ⟨by decide, h, by decide, ?_⟩
  unfold notebookRm fsRm
  rw [h]

/-- Witness for C9 at a concrete filesystem state. -/
theorem cleanup_rm_targets_dbfs_not_local_witness :
    (notebookRm (ClusterFS.mk [("horovod_estimator/ckpt", "w")]
      [("/tmp/horovod_estimator/ckpt", "w")])).localEntries =
      [("/tmp/horovod_estimator/ckpt", "w")] :=
  (cleanup_rm_targets_dbfs_not_local
    (ClusterFS.mk [("horovod_estimator/ckpt", "w")]
      [("/tmp/horovod_estimator/ckpt", "w")])).2.2.2

/-- C10: the table displayed after the refit comes from `transformer`, the
transformer returned by the first fit: `new_res` is the first fitted model
applied to `df`, it is unchanged under any change of the refit's return value,
`new_transformer` is a different transformer, and no transform event in the
trace ever names it. -/
theorem second_transform_uses_first_fit (M : Type) (train train2 : Nat → Nat → M)
    (h : train 0 5000 = train2 0 5000) :
    (runNotebook M train).new_res = transform (runNotebook M train).transformer "df" ∧
    (runNotebook M train).new_res.1 = train 0 5000 ∧
    (runNotebook M train).new_res = (runNotebook M train2).new_res ∧
    (runNotebook M train).new_transformer.fitIdx ≠ (runNotebook M train).transformer.fitIdx ∧
    (∀ i d, Event.transformEvent i d ∈ (runNotebook M train).trace →
      i = (runNotebook M train).transformer.fitIdx) := by
  refine ⟨rfl, rfl, ?_, Nat.one_ne_zero, ?_⟩
  · simp only [runNotebook, transform, est]
    rw [h]
  · intro i d hmem
    simp only [runNotebook, List.mem_cons, List.not_mem_nil, or_false] at hmem
    rcases hmem with h1 | h1 | h1 | h1 | h1 | h1 | h1 | h1 | h1 | h1 | h1 | h1 | h1 | h1 <;>
      first
        | (cases h1; rfl)
        | exact absurd h1 (by simp)

/-- Witness for C10 at two concrete training functions agreeing on the first
fit. -/
theorem second_transform_uses_first_fit_witness :
    (runNotebook Nat fun i s => i + s).new_res =
      transform (runNotebook Nat fun i s => i + s).transformer "df" ∧
    (runNotebook Nat fun i s => i + s).new_res.1 = (fun i s => i + s : Nat → Nat → Nat) 0 5000 ∧
    (runNotebook Nat fun i s => i + s).new_res =
      (runNotebook Nat fun i s => if i = 0 then s else 77).new_res ∧
    (runNotebook Nat fun i s => i + s).new_transformer.fitIdx ≠
      (runNotebook Nat fun i s => i + s).transformer.fitIdx ∧
    (∀ i d, Event.transformEvent i d ∈ (runNotebook Nat fun i s => i + s).trace →
      i = (runNotebook Nat fun i s => i + s).transformer.fitIdx) :=
  second_transform_uses_first_fit Nat (fun i s => i + s)
    (fun i s => if i = 0 then s else 77) (by decide)

/-- C7: every record the loader builds pairs a flattened image with a label;
when the dataset delivers 28x28 grids and digit labels (the MNIST contract),
every record's image field has length exactly 784 and its label lies in
`[0, 9]`. -/
theorem mnist_record_shapes (imgs : List (List (List ℚ))) (lbls : List ℤ)
    (himg : ∀ img ∈ imgs, img.length = 28 ∧ ∀ row ∈ img, row.length = 28)
    (hlbl : ∀ l ∈ lbls, 0 ≤ l ∧ l ≤ 9) :
    ∀ rec ∈ mnistData imgs lbls, rec.1.length = 784 ∧ 0 ≤ rec.2 ∧ rec.2 ≤ 9 := by
  intro rec hrec
  obtain ⟨h1, h2⟩ := List.of_mem_zip hrec
  obtain ⟨img, himgmem, hflat⟩ := List.mem_map.mp h1
  obtain ⟨hlen, hrows⟩ := himg img himgmem
  refine ⟨?_, hlbl rec.2 h2⟩
  have hall : ∀ b ∈ img.map List.length, b = 28 := by
    intro b hb
    obtain ⟨row, hrow, rfl⟩ := List.mem_map.mp hb
    exact hrows row hrow
  have hsum : (img.map List.length).sum = 784 := by
    rw [List.eq_replicate_length.mpr hall, List.sum_replicate, List.length_map, hlen]
    simp [smul_eq_mul]
  rw [← hflat]
  show img.flatten.length = 784
  rw [List.length_flatten]
  exact hsum

/-- Witness for C7 at a one-record dataset: a constant 28x28 grid with
label 3. -/
theorem mnist_record_shapes_witness :
    (flattenImage (List.replicate 28 (List.replicate 28 (0 : ℚ)))).length = 784 ∧
    (0 : ℤ) ≤ 3 ∧ (3 : ℤ) ≤ 9 :=
  mnist_record_shapes [List.replicate 28 (List.replicate 28 (0 : ℚ))] [3]
    (by
      intro img h
      rw [List.mem_singleton] at h
      subst h
      refine ⟨by simp, ?_⟩
      intro row hr
      rw [List.eq_of_mem_replicate hr]
      simp)
    (by
      intro l hl
      rw [List.mem_singleton] at hl
      subst hl
      norm_num)
    (flattenImage (List.replicate 28 (List.replicate 28 (0 : ℚ))), 3)
    (by simp [mnistData])

/-- C8: the checkpoint copy call leaves the driver-local source tree exactly
in place and appends, under the distributed destination directory, the source
entries verbatim (contents unparsed and unmodified); in the script's trace the
copy (index 9) comes after both fits (indices 2 and 6). -/
theorem checkpoint_copy_preserves_source (fs : ClusterFS) (M : Type)
    (train : Nat → Nat → M) :
    (notebookCp fs).localEntries = fs.localEntries ∧
    (notebookCp fs).dbfsEntries = fs.dbfsEntries ++
      (entriesUnder "/tmp/horovod_estimator/" fs.localEntries).map
        (fun e => ("/horovod_estimator/" ++ e.1, e.2)) ∧
    (runNotebook M train).trace.get? 9 =
      some (Event.cpEvent "file:/tmp/horovod_estimator/" "dbfs:/horovod_estimator/" true) ∧
    (runNotebook M train).trace.get? 2 = some (Event.fitEvent 0 5000 "df_with_val") ∧
    (runNotebook M train).trace.get? 6 = some (Event.fitEvent 1 10000 "df_with_val") ∧
    2 < 9 ∧ 6 < 9 := by
  have hsrc : resolvePath "file:/tmp/horovod_estimator/" =
      FsLocation.localFile "/tmp/horovod_estimator/" := by decide
  have hdst : resolvePath "dbfs:/horovod_estimator/" =
      FsLocation.dbfs "/horovod_estimator/" := by decide
  refine ⟨?_, ?_, rfl, rfl, rfl, by norm_num, by norm_num⟩
  · unfold notebookCp fsCp
    rw [hsrc, hdst]
    rfl
  · unfold notebookCp fsCp
    rw [hsrc, hdst]
    rfl

/-- Witness for C8 at a concrete filesystem holding one checkpoint file. -/
theorem checkpoint_copy_preserves_source_witness :
    (notebookCp (ClusterFS.mk [] [("/tmp/horovod_estimator/model.ckpt", "bytes")])).localEntries =
      [("/tmp/horovod_estimator/model.ckpt", "bytes")] ∧
    (notebookCp (ClusterFS.mk [] [("/tmp/horovod_estimator/model.ckpt", "bytes")])).dbfsEntries =
      [] ++ (entriesUnder "/tmp/horovod_estimator/"
        [("/tmp/horovod_estimator/model.ckpt", "bytes")]).map
        (fun e => ("/horovod_estimator/" ++ e.1, e.2)) ∧
    (entriesUnder "/tmp/horovod_estimator/"
        [("/tmp/horovod_estimator/model.ckpt", "bytes")]).map
        (fun e => ("/horovod_estimator/" ++ e.1, e.2)) =
      [("/horovod_estimator/model.ckpt", "bytes")] := by
  have h := checkpoint_copy_preserves_source
    (ClusterFS.mk [] [("/tmp/horovod_estimator/model.ckpt", "bytes")]) Nat (fun i s => i + s)
  exact ⟨h.1, h.2.1, by decide⟩

/-- C1: the appended `isVal` column is always a non-null boolean, `True`
exactly when that row's own uniform draw exceeds `0.8`; the entry at row `i`
is a function of draw `i` alone (independent of all other rows); and under the
uniform draw on `[0, 1)` the validation event has probability exactly `0.2`
and the training event probability `0.8`. -/
theorem isVal_column_random_split (α : Type) (rows : List α) (draws d d2 : List ℚ)
    (i : ℕ) :
    (∀ r : ℚ, whenOtherwise r = some (decide (r > 8 / 10))) ∧
    ((dfWithVal rows draws).get? i =
      (rows.get? i).bind fun row => (draws.get? i).map fun r => (row, whenOtherwise r)) ∧
    (d.get? i = d2.get? i →
      ((dfWithVal rows d).get? i).map Prod.snd =
        ((dfWithVal rows d2).get? i).map Prod.snd) ∧
    MeasureTheory.volume isValEvent = ENNReal.ofReal (2 / 10) ∧
    MeasureTheory.volume isTrainEvent = ENNReal.ofReal (8 / 10) ∧
    MeasureTheory.volume (Set.Ico (0 : ℝ) 1) = 1 := by
  refine ⟨?_, ?_, ?_, ?_, ?_, ?_⟩
  · intro r
    by_cases h : r > 8 / 10 <;> simp [whenOtherwise, whenGt, h]
  · rw [dfWithVal, List.get?_zipWith']
    cases rows.get? i <;> cases draws.get? i <;> rfl
  · intro h
    rw [dfWithVal, dfWithVal, List.get?_zipWith', List.get?_zipWith', h]
  · have hset : isValEvent = Set.Ioo (8 / 10 : ℝ) 1 := by
      ext r
      simp only [isValEvent, Set.mem_setOf_eq, Set.mem_Ico, Set.mem_Ioo]
      constructor
      · rintro ⟨⟨h0, h1⟩, hgt⟩
        exact ⟨hgt, h1⟩
      · rintro ⟨hgt, h1⟩
        exact ⟨⟨by linarith, h1⟩, hgt⟩
    rw [hset, Real.volume_Ioo, show (1 : ℝ) - 8 / 10 = 2 / 10 by norm_num]
  · have hset : isTrainEvent = Set.Icc (0 : ℝ) (8 / 10) := by
      ext r
      simp only [isTrainEvent, Set.mem_setOf_eq, Set.mem_Ico, Set.mem_Icc, not_lt]
      constructor
      · rintro ⟨⟨h0, h1⟩, hle⟩
        exact ⟨h0, hle⟩
      · rintro ⟨h0, hle⟩
        exact ⟨⟨h0, by linarith⟩, hle⟩
    rw [hset, Real.volume_Icc, show (8 / 10 : ℝ) - 0 = 8 / 10 by norm_num]
  · rw [Real.volume_Ico, show (1 : ℝ) - 0 = 1 by norm_num, ENNReal.ofReal_one]

/-- Witness for C1 at a concrete row, draws 0.9 and 0.5. -/
theorem isVal_column_random_split_witness :
    whenOtherwise (9 / 10 : ℚ) = some (decide ((9 / 10 : ℚ) > 8 / 10)) ∧
    whenOtherwise (1 / 2 : ℚ) = some (decide ((1 / 2 : ℚ) > 8 / 10)) ∧
    ((dfWithVal [7] [(9 : ℚ) / 10]).get? 0 =
      (([7] : List ℕ).get? 0).bind fun row =>
        (([(9 : ℚ) / 10]).get? 0).map fun r => (row, whenOtherwise r)) ∧
    MeasureTheory.volume isValEvent = ENNReal.ofReal (2 / 10) := by
  have h := isVal_column_random_split ℕ [7] [(9 : ℚ) / 10] [(1 : ℚ) / 2] [(1 : ℚ) / 2] 0
  exact ⟨h.1 (9 / 10), h.1 (1 / 2), h.2.1, h.2.2.2.1⟩

end HorovodNotebook
